import Mathlib

/-!
Verification of the jsoniter-go output engine: the table-driven integer
encoder (`stream_int.go`) and the two output-sink variants plus the stream
facade (`stream.go`), shallowly embedded over `Nat` byte sequences.
-/

namespace Jsoniter

/-- A sequence of bytes, each in `[0, 256)`. -/
abbrev Bytes := List Nat

/-! ## Digit encoding engine (`stream_int.go`) -/

/-- Entry `i` of the `digits` table built in `init`: the three ASCII digit
bytes of `i` packed into the low 24 bits, plus the count of leading digits
to skip (2 if `i < 10`, 1 if `i < 100`, else 0) in bits 24 and up.
Mirrors `digits[i] = (((i/100)+'0')<<16) + ((((i/10)%10)+'0')<<8) + i%10 + '0'`
followed by `digits[i] += 2<<24` / `1<<24`. -/
def digitsEntry (i : Nat) : Nat :=
  let base := ((i / 100 + 48) <<< 16) + ((i / 10 % 10 + 48) <<< 8) + i % 10 + 48
  if i < 10 then base + (2 <<< 24) else if i < 100 then base + (1 <<< 24) else base

/-- Bytes appended by `Stream.writeFirstBuf`: the skip count in bits 24+
selects whether three, two, or one of the packed digit bytes are emitted.
`byte(x)` in Go is `x % 256`. -/
def writeFirstBuf (v : Nat) : Bytes :=
  let start := v >>> 24
  if start = 0 then [(v >>> 16) % 256, (v >>> 8) % 256, v % 256]
  else if start = 1 then [(v >>> 8) % 256, v % 256]
  else [v % 256]

/-- Bytes appended by `Stream.writeBuf`: all three packed digit bytes. -/
def writeBuf (v : Nat) : Bytes :=
  [(v >>> 16) % 256, (v >>> 8) % 256, v % 256]

/-- Bytes emitted by `Stream.WriteUint8`. -/
def writeUint8 (val : Nat) : Bytes :=
  writeFirstBuf (digitsEntry val)

/-- Bytes emitted by `Stream.WriteUint16`. -/
def writeUint16 (val : Nat) : Bytes :=
  let q1 := val / 1000
  if q1 = 0 then writeFirstBuf (digitsEntry val)
  else
    let r1 := val - q1 * 1000
    writeFirstBuf (digitsEntry q1) ++ writeBuf (digitsEntry r1)

/-- Bytes emitted by `Stream.WriteUint32`. Note: in the `q3 != 0` branch the
source writes `byte(q2 + '0')` (stream_int.go line 93), which is
`(q2 + 48) % 256`. -/
def writeUint32 (val : Nat) : Bytes :=
  let q1 := val / 1000
  if q1 = 0 then writeFirstBuf (digitsEntry val)
  else
    let r1 := val - q1 * 1000
    let q2 := q1 / 1000
    if q2 = 0 then writeFirstBuf (digitsEntry q1) ++ writeBuf (digitsEntry r1)
    else
      let r2 := q1 - q2 * 1000
      let q3 := q2 / 1000
      (if q3 = 0 then writeFirstBuf (digitsEntry q2)
       else
         let r3 := q2 - q3 * 1000
         [(q2 + 48) % 256] ++ writeBuf (digitsEntry r3)) ++
      (writeBuf (digitsEntry r2) ++ writeBuf (digitsEntry r1))

/-- Bytes emitted by `Stream.WriteUint64`. -/
def writeUint64 (val : Nat) : Bytes :=
  let q1 := val / 1000
  if q1 = 0 then writeFirstBuf (digitsEntry val)
  else
    let r1 := val - q1 * 1000
    let q2 := q1 / 1000
    if q2 = 0 then writeFirstBuf (digitsEntry q1) ++ writeBuf (digitsEntry r1)
    else
      let r2 := q1 - q2 * 1000
      let q3 := q2 / 1000
      if q3 = 0 then
        writeFirstBuf (digitsEntry q2) ++
          (writeBuf (digitsEntry r2) ++ writeBuf (digitsEntry r1))
      else
        let r3 := q2 - q3 * 1000
        let q4 := q3 / 1000
        if q4 = 0 then
          writeFirstBuf (digitsEntry q3) ++
            (writeBuf (digitsEntry r3) ++
              (writeBuf (digitsEntry r2) ++ writeBuf (digitsEntry r1)))
        else
          let r4 := q3 - q4 * 1000
          let q5 := q4 / 1000
          if q5 = 0 then
            writeFirstBuf (digitsEntry q4) ++
              (writeBuf (digitsEntry r4) ++
                (writeBuf (digitsEntry r3) ++
                  (writeBuf (digitsEntry r2) ++ writeBuf (digitsEntry r1))))
          else
            let r5 := q4 - q5 * 1000
            let q6 := q5 / 1000
            (if q6 = 0 then writeFirstBuf (digitsEntry q5)
             else
               let r6 := q5 - q6 * 1000
               writeFirstBuf (digitsEntry q6) ++ writeBuf (digitsEntry r6)) ++
            (writeBuf (digitsEntry r5) ++
              (writeBuf (digitsEntry r4) ++
                (writeBuf (digitsEntry r3) ++
                  (writeBuf (digitsEntry r2) ++ writeBuf (digitsEntry r1)))))

/-- Bytes emitted by `Stream.WriteInt8`. Go negation of an `int8` wraps at
the minimum value and the `uint8` conversion takes the value mod `2^8`,
so `uint8(-nval)` is `(-nval).toNat % 2^8` for negative `nval`. -/
def writeInt8 (nval : Int) : Bytes :=
  if nval < 0 then 45 :: writeFirstBuf (digitsEntry ((-nval).toNat % 2 ^ 8))
  else writeFirstBuf (digitsEntry (nval.toNat % 2 ^ 8))

/-- Bytes emitted by `Stream.WriteInt16`. -/
def writeInt16 (nval : Int) : Bytes :=
  if nval < 0 then 45 :: writeUint16 ((-nval).toNat % 2 ^ 16)
  else writeUint16 (nval.toNat % 2 ^ 16)

/-- Bytes emitted by `Stream.WriteInt32`. -/
def writeInt32 (nval : Int) : Bytes :=
  if nval < 0 then 45 :: writeUint32 ((-nval).toNat % 2 ^ 32)
  else writeUint32 (nval.toNat % 2 ^ 32)

/-- Bytes emitted by `Stream.WriteInt64`. -/
def writeInt64 (nval : Int) : Bytes :=
  if nval < 0 then 45 :: writeUint64 ((-nval).toNat % 2 ^ 64)
  else writeUint64 (nval.toNat % 2 ^ 64)

/-! ## The canonical decimal ASCII representation (specification side) -/

/-- The canonical decimal ASCII byte string of `v`: no leading zeros, and
the single byte `'0'` (48) for zero. -/
def decBytes (v : Nat) : Bytes :=
  if _h : v < 10 then [v + 48]
  else decBytes (v / 10) ++ [v % 10 + 48]
termination_by v
decreasing_by exact Nat.div_lt_self (by omega) (by omega)

/-- The exactly-three-byte zero-padded decimal ASCII representation of a
3-digit group `n < 1000`. -/
def pad3 (n : Nat) : Bytes :=
  [n / 100 + 48, n / 10 % 10 + 48, n % 10 + 48]

/-- Closed (non-recursive) form of the canonical decimal bytes of `n < 1000`,
used to decide table lemmas by finite check. -/
def dec3 (n : Nat) : Bytes :=
  if n < 10 then [n + 48]
  else if n < 100 then [n / 10 + 48, n % 10 + 48]
  else [n / 100 + 48, n / 10 % 10 + 48, n % 10 + 48]

theorem decBytes_lt10 (v : Nat) (h : v < 10) : decBytes v = [v + 48] := by
  rw [decBytes]
  exact dif_pos h

theorem decBytes_step (v : Nat) (h : 10 ≤ v) :
    decBytes v = decBytes (v / 10) ++ [v % 10 + 48] := by
  rw [decBytes]
  exact dif_neg (by omega)

theorem dec3_eq_decBytes (n : Nat) (h : n < 1000) : dec3 n = decBytes n := by
  unfold dec3
  by_cases h10 : n < 10
  · rw [if_pos h10, decBytes_lt10 n h10]
  · rw [if_neg h10]
    by_cases h100 : n < 100
    · rw [if_pos h100, decBytes_step n (by omega), decBytes_lt10 (n / 10) (by omega)]
      rfl
    · rw [if_neg h100, decBytes_step n (by omega), decBytes_step (n / 10) (by omega),
        decBytes_lt10 (n / 10 / 10) (by omega)]
      have h2 : n / 10 / 10 = n / 100 := by omega
      rw [h2]
      rfl

set_option maxRecDepth 4000 in
theorem writeFirstBuf_digitsEntry : ∀ n < 1000, writeFirstBuf (digitsEntry n) = dec3 n := by
  decide

set_option maxRecDepth 4000 in
theorem writeBuf_digitsEntry : ∀ n < 1000, writeBuf (digitsEntry n) = pad3 n := by
  decide

theorem firstGroup_eq_decBytes (n : Nat) (h : n < 1000) :
    writeFirstBuf (digitsEntry n) = decBytes n := by
  rw [writeFirstBuf_digitsEntry n h, dec3_eq_decBytes n h]

/-- Splitting off the least-significant 3-digit group of a number of at
least four digits keeps the representation canonical: the group is emitted
zero-padded after the canonical bytes of the quotient. -/
theorem decBytes_split1000 (v : Nat) (h : v / 1000 ≠ 0) :
    decBytes v = decBytes (v / 1000) ++ pad3 (v % 1000) := by
  rw [decBytes_step v (by omega), decBytes_step (v / 10) (by omega),
    decBytes_step (v / 10 / 10) (by omega)]
  have e3 : v / 10 / 10 / 10 = v / 1000 := by omega
  have e2 : v / 10 / 10 % 10 = v % 1000 / 100 := by omega
  have e1 : v / 10 % 10 = v % 1000 / 10 % 10 := by omega
  have e0 : v % 10 = v % 1000 % 10 := by omega
  rw [e3, e2, e1, e0]
  simp [pad3, List.append_assoc]

/-- Core correctness of `WriteUint64`: for every value in the `uint64`
range the emitted bytes are the canonical decimal ASCII representation. -/
theorem writeUint64_eq_decBytes (v : Nat) (hv : v < 2 ^ 64) :
    writeUint64 v = decBytes v := by
  unfold writeUint64
  simp only []
  by_cases h1 : v / 1000 = 0
  · rw [if_pos h1]
    exact firstGroup_eq_decBytes v (by omega)
  · rw [if_neg h1]
    have r1 : v - v / 1000 * 1000 = v % 1000 := by omega
    rw [r1, decBytes_split1000 v h1, writeBuf_digitsEntry (v % 1000) (by omega)]
    by_cases h2 : v / 1000 / 1000 = 0
    · rw [if_pos h2]
      rw [firstGroup_eq_decBytes (v / 1000) (by omega)]
    · rw [if_neg h2]
      have r2 : v / 1000 - v / 1000 / 1000 * 1000 = v / 1000 % 1000 := by omega
      rw [r2, decBytes_split1000 (v / 1000) h2,
        writeBuf_digitsEntry (v / 1000 % 1000) (by omega)]
      by_cases h3 : v / 1000 / 1000 / 1000 = 0
      · rw [if_pos h3, firstGroup_eq_decBytes (v / 1000 / 1000) (by omega)]
        simp [List.append_assoc]
      · rw [if_neg h3]
        have r3 : v / 1000 / 1000 - v / 1000 / 1000 / 1000 * 1000
            = v / 1000 / 1000 % 1000 := by omega
        rw [r3, decBytes_split1000 (v / 1000 / 1000) h3,
          writeBuf_digitsEntry (v / 1000 / 1000 % 1000) (by omega)]
        by_cases h4 : v / 1000 / 1000 / 1000 / 1000 = 0
        · rw [if_pos h4, firstGroup_eq_decBytes (v / 1000 / 1000 / 1000) (by omega)]
          simp [List.append_assoc]
        · rw [if_neg h4]
          have r4 : v / 1000 / 1000 / 1000 - v / 1000 / 1000 / 1000 / 1000 * 1000
              = v / 1000 / 1000 / 1000 % 1000 := by omega
          rw [r4, decBytes_split1000 (v / 1000 / 1000 / 1000) h4,
            writeBuf_digitsEntry (v / 1000 / 1000 / 1000 % 1000) (by omega)]
          by_cases h5 : v / 1000 / 1000 / 1000 / 1000 / 1000 = 0
          · rw [if_pos h5,
              firstGroup_eq_decBytes (v / 1000 / 1000 / 1000 / 1000) (by omega)]
            simp [List.append_assoc]
          · rw [if_neg h5]
            have r5 : v / 1000 / 1000 / 1000 / 1000
                  - v / 1000 / 1000 / 1000 / 1000 / 1000 * 1000
                = v / 1000 / 1000 / 1000 / 1000 % 1000 := by omega
            rw [r5, decBytes_split1000 (v / 1000 / 1000 / 1000 / 1000) h5,
              writeBuf_digitsEntry (v / 1000 / 1000 / 1000 / 1000 % 1000) (by omega)]
            by_cases h6 : v / 1000 / 1000 / 1000 / 1000 / 1000 / 1000 = 0
            · rw [if_pos h6,
                firstGroup_eq_decBytes (v / 1000 / 1000 / 1000 / 1000 / 1000) (by omega)]
              simp [List.append_assoc]
            · rw [if_neg h6]
              have r6 : v / 1000 / 1000 / 1000 / 1000 / 1000
                    - v / 1000 / 1000 / 1000 / 1000 / 1000 / 1000 * 1000
                  = v / 1000 / 1000 / 1000 / 1000 / 1000 % 1000 := by omega
              rw [r6, decBytes_split1000 (v / 1000 / 1000 / 1000 / 1000 / 1000) h6,
                writeBuf_digitsEntry (v / 1000 / 1000 / 1000 / 1000 / 1000 % 1000)
                  (by omega),
                firstGroup_eq_decBytes (v / 1000 / 1000 / 1000 / 1000 / 1000 / 1000)
                  (by omega)]
              simp [List.append_assoc]

/-- C1: the claim states that `WriteUint32` emits the canonical decimal
ASCII representation for every `uint32`, including 10-digit values such as
4294967295. The code instead writes `byte(q2 + '0')` (not `byte(q3 + '0')`)
for the most significant digit of values with ten digits, so at 4294967295
it emits the byte 246 followed by "294967295" rather than "4294967295". -/
theorem writeUint32_wrong_at_4294967295 :
    writeUint32 4294967295 = [246, 50, 57, 52, 57, 54, 55, 50, 57, 53] ∧
    decBytes 4294967295 = [52, 50, 57, 52, 57, 54, 55, 50, 57, 53] ∧
    writeUint32 4294967295 ≠ decBytes 4294967295 := by
  rw [← writeUint64_eq_decBytes 4294967295 (by decide)]
  exact ⟨by decide, by decide, by decide⟩

/-- C2: negative values do emit `'-'` (45) followed by the unsigned
encoding of the magnitude, and the minimum values of widths 8, 16 and 64
are emitted correctly; but the 32-bit minimum −2147483648 is emitted
wrongly because the magnitude 2147483648 falls into the broken
ten-digit branch of `WriteUint32`. -/
theorem writeInt_min_values :
    writeInt8 (-128) = 45 :: decBytes 128 ∧
    writeInt16 (-32768) = 45 :: decBytes 32768 ∧
    writeInt64 (-9223372036854775808) = 45 :: decBytes 9223372036854775808 ∧
    writeInt32 (-2147483648) ≠ 45 :: decBytes 2147483648 := by
  rw [← writeUint64_eq_decBytes 128 (by decide),
    ← writeUint64_eq_decBytes 32768 (by decide),
    ← writeUint64_eq_decBytes 9223372036854775808 (by decide),
    ← writeUint64_eq_decBytes 2147483648 (by decide)]
  exact ⟨by decide, by decide, by decide, by decide⟩

/-- C3: for every value in the `uint64` range, `WriteUint64` emits exactly
the canonical decimal ASCII representation, with no leading zeros. -/
theorem writeUint64_canonical (v : Nat) (hv : v < 2 ^ 64) :
    writeUint64 v = decBytes v :=
  writeUint64_eq_decBytes v hv

/-- Witness for C3 at the largest `uint64` value. -/
theorem writeUint64_canonical_witness :
    (18446744073709551615 : Nat) < 2 ^ 64 ∧
      writeUint64 18446744073709551615 = decBytes 18446744073709551615 :=
  ⟨by decide, writeUint64_canonical 18446744073709551615 (by decide)⟩

/-! ## Output sinks and stream facade (`stream.go`)

Stateful Go methods become explicit state passing.  An `io.Writer` is an
external collaborator; it is modelled by its response to a write call.
Every operation additionally returns the trace of calls made to the
underlying writer (the list of byte slices passed to `out.Write`), which
makes "no write to the underlying writer occurs" and "a single two-byte
write" directly statable. -/

/-- An underlying `io.Writer`: `write` returns the count accepted and an
optional error; `flushRes` is `some r` when the writer's dynamic type also
implements the `Flusher` interface and its `Flush` returns `r`. -/
structure Writer where
  write : Bytes → Nat × Option String
  flushRes : Option (Option String)

/-- The accumulating sink `bufferedStream`: an optional underlying writer
and a growable byte buffer. -/
structure bufferedStream where
  out : Option Writer
  buf : Bytes

/-- `bufferedStream.Reset`: rebind the writer and clear the buffer. -/
def bufferedStream.Reset (_s : bufferedStream) (out : Option Writer) : bufferedStream :=
  ⟨out, []⟩

/-- `bufferedStream.Buffered`: number of bytes currently held. -/
def bufferedStream.Buffered (s : bufferedStream) : Nat :=
  s.buf.length

/-- `bufferedStream.Buffer`: read access to the held bytes. -/
def bufferedStream.Buffer (s : bufferedStream) : Bytes :=
  s.buf

/-- `bufferedStream.SetBuffer`: replace the held buffer wholesale. -/
def bufferedStream.SetBuffer (s : bufferedStream) (buf : Bytes) : bufferedStream :=
  ⟨s.out, buf⟩

/-- `bufferedStream.Write`: append `p` to the buffer; then, if a writer is
bound, send the whole buffer to it, keep the suffix it did not accept, and
return its count and error; with no writer return `(len(p), nil)`.
Result: new state, count, error, writer-call trace. -/
def bufferedStream.Write (s : bufferedStream) (p : Bytes) :
    bufferedStream × Nat × Option String × List Bytes :=
  let buf := s.buf ++ p
  match s.out with
  | some w =>
    let r := w.write buf
    (⟨s.out, buf.drop r.1⟩, r.1, r.2, [buf])
  | none => (⟨none, buf⟩, p.length, none, [])

/-- `bufferedStream.writeByte`: append one byte to the buffer. -/
def bufferedStream.writeByte (s : bufferedStream) (c : Nat) : bufferedStream :=
  ⟨s.out, s.buf ++ [c]⟩

/-- `bufferedStream.writeTwoBytes`. -/
def bufferedStream.writeTwoBytes (s : bufferedStream) (c1 c2 : Nat) : bufferedStream :=
  ⟨s.out, s.buf ++ [c1, c2]⟩

/-- `bufferedStream.writeThreeBytes`. -/
def bufferedStream.writeThreeBytes (s : bufferedStream) (c1 c2 c3 : Nat) : bufferedStream :=
  ⟨s.out, s.buf ++ [c1, c2, c3]⟩

/-- `bufferedStream.writeFourBytes`. -/
def bufferedStream.writeFourBytes (s : bufferedStream) (c1 c2 c3 c4 : Nat) :
    bufferedStream :=
  ⟨s.out, s.buf ++ [c1, c2, c3, c4]⟩

/-- `bufferedStream.writeFiveBytes`. -/
def bufferedStream.writeFiveBytes (s : bufferedStream) (c1 c2 c3 c4 c5 : Nat) :
    bufferedStream :=
  ⟨s.out, s.buf ++ [c1, c2, c3, c4, c5]⟩

/-- `bufferedStream.WriteRaw`: append the bytes of a string verbatim. -/
def bufferedStream.WriteRaw (s : bufferedStream) (str : Bytes) : bufferedStream :=
  ⟨s.out, s.buf ++ str⟩

/-- `bufferedStream.flush`: with a writer bound, send the whole buffer; on
error return it with the buffer untouched (the count is discarded), else
clear the buffer.  With no writer, succeed without doing anything.
Result: new state, error, writer-call trace. -/
def bufferedStream.flush (s : bufferedStream) :
    bufferedStream × Option String × List Bytes :=
  match s.out with
  | none => (s, none, [])
  | some w =>
    let r := w.write s.buf
    match r.2 with
    | some e => (s, some e, [s.buf])
    | none => (⟨s.out, []⟩, none, [s.buf])

/-- The direct sink `unbufferedStream`: an optional underlying writer and
a 5-byte scratch array reused per call. -/
structure unbufferedStream where
  out : Option Writer
  arr : Fin 5 → Nat

/-- `unbufferedStream.Buffer`: holds no bytes, always returns an empty
result (the Go code prints a diagnostic and returns `nil`). -/
def unbufferedStream.Buffer (_s : unbufferedStream) : Bytes :=
  []

/-- `unbufferedStream.Buffered`: always 0. -/
def unbufferedStream.Buffered (_s : unbufferedStream) : Nat :=
  0

/-- `unbufferedStream.Write`: with a writer bound, forward the exact slice
and report its result verbatim; with no writer, report zero bytes written
and no error (the bytes are lost).  The state is not touched.
Result: count, error, writer-call trace. -/
def unbufferedStream.Write (s : unbufferedStream) (p : Bytes) :
    Nat × Option String × List Bytes :=
  match s.out with
  | some w =>
    let r := w.write p
    (r.1, r.2, [p])
  | none => (0, none, [])

/-- `unbufferedStream.writeByte`: stage the byte in `arr[0]` and issue one
`Write` of `arr[:1]` (its count and error are discarded). -/
def unbufferedStream.writeByte (s : unbufferedStream) (c1 : Nat) :
    unbufferedStream × List Bytes :=
  let a : Fin 5 → Nat := fun i => if i.val = 0 then c1 else s.arr i
  (⟨s.out, a⟩, (unbufferedStream.Write ⟨s.out, a⟩ [a 0]).2.2)

/-- `unbufferedStream.writeTwoBytes`: stage into `arr[:2]`, one `Write`. -/
def unbufferedStream.writeTwoBytes (s : unbufferedStream) (c1 c2 : Nat) :
    unbufferedStream × List Bytes :=
  let a : Fin 5 → Nat := fun i =>
    if i.val = 0 then c1 else if i.val = 1 then c2 else s.arr i
  (⟨s.out, a⟩, (unbufferedStream.Write ⟨s.out, a⟩ [a 0, a 1]).2.2)

/-- `unbufferedStream.writeThreeBytes`. -/
def unbufferedStream.writeThreeBytes (s : unbufferedStream) (c1 c2 c3 : Nat) :
    unbufferedStream × List Bytes :=
  let a : Fin 5 → Nat := fun i =>
    if i.val = 0 then c1 else if i.val = 1 then c2 else if i.val = 2 then c3
    else s.arr i
  (⟨s.out, a⟩, (unbufferedStream.Write ⟨s.out, a⟩ [a 0, a 1, a 2]).2.2)

/-- `unbufferedStream.writeFourBytes`. -/
def unbufferedStream.writeFourBytes (s : unbufferedStream) (c1 c2 c3 c4 : Nat) :
    unbufferedStream × List Bytes :=
  let a : Fin 5 → Nat := fun i =>
    if i.val = 0 then c1 else if i.val = 1 then c2 else if i.val = 2 then c3
    else if i.val = 3 then c4 else s.arr i
  (⟨s.out, a⟩, (unbufferedStream.Write ⟨s.out, a⟩ [a 0, a 1, a 2, a 3]).2.2)

/-- `unbufferedStream.writeFiveBytes`. -/
def unbufferedStream.writeFiveBytes (s : unbufferedStream) (c1 c2 c3 c4 c5 : Nat) :
    unbufferedStream × List Bytes :=
  let a : Fin 5 → Nat := fun i =>
    if i.val = 0 then c1 else if i.val = 1 then c2 else if i.val = 2 then c3
    else if i.val = 3 then c4 else if i.val = 4 then c5 else s.arr i
  (⟨s.out, a⟩, (unbufferedStream.Write ⟨s.out, a⟩ [a 0, a 1, a 2, a 3, a 4]).2.2)

/-- `unbufferedStream.WriteRaw`: one `Write` of the string's bytes. -/
def unbufferedStream.WriteRaw (s : unbufferedStream) (str : Bytes) : List Bytes :=
  (unbufferedStream.Write s str).2.2

/-- `unbufferedStream.flush`: forward to the writer only when its dynamic
type implements `Flusher` (a nil writer fails the type assertion). -/
def unbufferedStream.flush (s : unbufferedStream) : Option String :=
  match s.out with
  | some w =>
    match w.flushRes with
    | some r => r
    | none => none
  | none => none

/-- The stream's sink, exactly one of the two variants. -/
inductive Sink where
  | buffered (b : bufferedStream)
  | unbuffered (u : unbufferedStream)

/-- The stream facade: sticky `Error`, indentation state, and the sink.
`indentionStep` comes from the frozen configuration. -/
structure Stream where
  indentionStep : Int
  sink : Sink
  Error : Option String
  indention : Int

/-- Facade dispatch of `writeByte` to the sink. -/
def Stream.writeByte (s : Stream) (c : Nat) : Stream × List Bytes :=
  match s.sink with
  | .buffered b => (⟨s.indentionStep, .buffered (b.writeByte c), s.Error, s.indention⟩, [])
  | .unbuffered u =>
    let r := u.writeByte c
    (⟨s.indentionStep, .unbuffered r.1, s.Error, s.indention⟩, r.2)

/-- Facade dispatch of `writeTwoBytes` to the sink. -/
def Stream.writeTwoBytes (s : Stream) (c1 c2 : Nat) : Stream × List Bytes :=
  match s.sink with
  | .buffered b =>
    (⟨s.indentionStep, .buffered (b.writeTwoBytes c1 c2), s.Error, s.indention⟩, [])
  | .unbuffered u =>
    let r := u.writeTwoBytes c1 c2
    (⟨s.indentionStep, .unbuffered r.1, s.Error, s.indention⟩, r.2)

/-- `Stream.Flush`: return the sticky error if set, otherwise delegate to
the sink's `flush`.  Result: new state, error, writer-call trace. -/
def Stream.Flush (s : Stream) : Stream × Option String × List Bytes :=
  match s.Error with
  | some e => (s, some e, [])
  | none =>
    match s.sink with
    | .buffered b =>
      let r := b.flush
      (⟨s.indentionStep, .buffered r.1, s.Error, s.indention⟩, r.2.1, r.2.2)
    | .unbuffered u => (s, u.flush, [])

/-- `Stream.WriteEmptyObject`: `writeByte('{')` then `writeByte('}')`. -/
def Stream.WriteEmptyObject (s : Stream) : Stream × List Bytes :=
  let r1 := s.writeByte 123
  let r2 := r1.1.writeByte 125
  (r2.1, r1.2 ++ r2.2)

/-- `Stream.WriteEmptyArray`: a single `writeTwoBytes('[', ']')`. -/
def Stream.WriteEmptyArray (s : Stream) : Stream × List Bytes :=
  s.writeTwoBytes 91 93

/-! ## Concrete writers used as witnesses -/

/-- A writer that accepts every byte offered to it. -/
def acceptAllW : Writer :=
  ⟨fun p => (p.length, none), none⟩

/-- A writer that accepts at most three bytes per call. -/
def partialW : Writer :=
  ⟨fun p => (min 3 p.length, none), none⟩

/-- A writer that reports it consumed one byte and then fails. -/
def errW : Writer :=
  ⟨fun p => (min 1 p.length, some "boom"), none⟩

/-- An all-zero 5-byte scratch array. -/
def scratch0 : Fin 5 → Nat :=
  fun _ => 0

/-! ## Write-operation sequences on the accumulating sink -/

/-- One write operation on the accumulating sink: bulk write, raw-string
write, or a fixed 1–5 byte write. -/
inductive WriteOp where
  | bulk (p : Bytes)
  | raw (str : Bytes)
  | one (c1 : Nat)
  | two (c1 c2 : Nat)
  | three (c1 c2 c3 : Nat)
  | four (c1 c2 c3 c4 : Nat)
  | five (c1 c2 c3 c4 c5 : Nat)

/-- Apply one write operation to a `bufferedStream`. -/
def applyOp (s : bufferedStream) : WriteOp → bufferedStream
  | .bulk p => (s.Write p).1
  | .raw str => s.WriteRaw str
  | .one c1 => s.writeByte c1
  | .two c1 c2 => s.writeTwoBytes c1 c2
  | .three c1 c2 c3 => s.writeThreeBytes c1 c2 c3
  | .four c1 c2 c3 c4 => s.writeFourBytes c1 c2 c3 c4
  | .five c1 c2 c3 c4 c5 => s.writeFiveBytes c1 c2 c3 c4 c5

/-- The bytes an operation writes. -/
def opBytes : WriteOp → Bytes
  | .bulk p => p
  | .raw str => str
  | .one c1 => [c1]
  | .two c1 c2 => [c1, c2]
  | .three c1 c2 c3 => [c1, c2, c3]
  | .four c1 c2 c3 c4 => [c1, c2, c3, c4]
  | .five c1 c2 c3 c4 c5 => [c1, c2, c3, c4, c5]

/-- In capture mode every write operation appends its bytes to the buffer
and leaves the sink in capture mode. -/
theorem applyOp_capture (s : bufferedStream) (h : s.out = none) (op : WriteOp) :
    applyOp s op = ⟨none, s.buf ++ opBytes op⟩ := by
  cases op <;>
    simp [applyOp, opBytes, bufferedStream.Write, bufferedStream.WriteRaw,
      bufferedStream.writeByte, bufferedStream.writeTwoBytes,
      bufferedStream.writeThreeBytes, bufferedStream.writeFourBytes,
      bufferedStream.writeFiveBytes, h]

/-! ## Claims about the sinks and the facade -/

/-- C4: `bufferedStream.Write` appends `p` and then, with a writer bound,
sends the full buffer in one call, keeps exactly the suffix the writer did
not accept, and returns the writer's count and error; with no writer bound
it retains everything and returns `(len(p), nil)`. -/
theorem bufferedWrite_contract (s : bufferedStream) (p : Bytes) :
    (∀ w, s.out = some w →
      (s.Write p).1.buf = (s.buf ++ p).drop (w.write (s.buf ++ p)).1 ∧
      (s.buf ++ p).take (w.write (s.buf ++ p)).1 ++ (s.Write p).1.buf = s.buf ++ p ∧
      (s.Write p).2.1 = (w.write (s.buf ++ p)).1 ∧
      (s.Write p).2.2.1 = (w.write (s.buf ++ p)).2 ∧
      (s.Write p).2.2.2 = [s.buf ++ p]) ∧
    (s.out = none → s.Write p = (⟨none, s.buf ++ p⟩, p.length, none, [])) := by
  constructor
  · intro w hw
    simp [bufferedStream.Write, hw, List.take_append_drop]
  · intro h
    simp only [bufferedStream.Write, h]

/-- Witness for C4: a buffer `[1, 2]`, a write of `[3, 4, 5]`, and a writer
that accepts only the first three bytes, leaving `[4, 5]` retained. -/
theorem bufferedWrite_contract_witness :
    (⟨some partialW, [1, 2]⟩ : bufferedStream).out = some partialW ∧
    ((⟨some partialW, [1, 2]⟩ : bufferedStream).Write [3, 4, 5]).1.buf
      = (([1, 2] : Bytes) ++ [3, 4, 5]).drop
          (partialW.write (([1, 2] : Bytes) ++ [3, 4, 5])).1 :=
  ⟨rfl, ((bufferedWrite_contract ⟨some partialW, [1, 2]⟩ [3, 4, 5]).1 partialW rfl).1⟩

/-- C5: with no bound writer, any sequence of write operations leaves the
accumulating sink holding exactly the concatenation of all bytes written,
in write order, recoverable via `Buffer`; nothing is ever drained. -/
theorem captureMode_accumulates (s : bufferedStream) (h : s.out = none)
    (ops : List WriteOp) :
    (ops.foldl applyOp s).Buffer = s.buf ++ (ops.map opBytes).flatten ∧
    (ops.foldl applyOp s).out = none := by
  induction ops generalizing s with
  | nil => simpa [bufferedStream.Buffer] using h
  | cons op ops ih =>
    rw [List.foldl_cons, applyOp_capture s h op]
    have h2 := ih ⟨none, s.buf ++ opBytes op⟩ rfl
    simpa [List.append_assoc] using h2

/-- Witness for C5: a byte write, a bulk write and a raw write in capture
mode accumulate in order. -/
theorem captureMode_accumulates_witness :
    (⟨none, []⟩ : bufferedStream).out = none ∧
    ((([WriteOp.one 104, WriteOp.bulk [105, 33], WriteOp.raw [10]]).foldl applyOp
        ⟨none, []⟩).Buffer
      = ([] : Bytes)
          ++ (([WriteOp.one 104, WriteOp.bulk [105, 33], WriteOp.raw [10]]).map
              opBytes).flatten ∧
     (([WriteOp.one 104, WriteOp.bulk [105, 33], WriteOp.raw [10]]).foldl applyOp
        (⟨none, []⟩ : bufferedStream)).out = none) :=
  ⟨rfl, captureMode_accumulates ⟨none, []⟩ rfl
    [WriteOp.one 104, WriteOp.bulk [105, 33], WriteOp.raw [10]]⟩

/-- C6: on the direct sink with no bound writer, every write reports zero
bytes written with no error, never reaches an underlying writer, and the
buffer-read operation returns an empty result. -/
theorem unbuffered_noWriter_discards (u : unbufferedStream) (h : u.out = none) :
    (∀ p, unbufferedStream.Write u p = (0, none, [])) ∧
    (∀ str, u.WriteRaw str = []) ∧
    (∀ c1, (u.writeByte c1).2 = []) ∧
    (∀ c1 c2, (u.writeTwoBytes c1 c2).2 = []) ∧
    (∀ c1 c2 c3, (u.writeThreeBytes c1 c2 c3).2 = []) ∧
    (∀ c1 c2 c3 c4, (u.writeFourBytes c1 c2 c3 c4).2 = []) ∧
    (∀ c1 c2 c3 c4 c5, (u.writeFiveBytes c1 c2 c3 c4 c5).2 = []) ∧
    u.Buffer = [] := by
  refine ⟨?_, ?_, ?_, ?_, ?_, ?_, ?_, rfl⟩ <;>
    intros <;>
    simp [unbufferedStream.Write, unbufferedStream.WriteRaw,
      unbufferedStream.writeByte, unbufferedStream.writeTwoBytes,
      unbufferedStream.writeThreeBytes, unbufferedStream.writeFourBytes,
      unbufferedStream.writeFiveBytes, unbufferedStream.Buffer, h]

/-- Witness for C6: a two-byte bulk write into a writerless direct sink. -/
theorem unbuffered_noWriter_discards_witness :
    (⟨none, scratch0⟩ : unbufferedStream).out = none ∧
    unbufferedStream.Write ⟨none, scratch0⟩ [7, 8] = (0, none, []) :=
  ⟨rfl, (unbuffered_noWriter_discards ⟨none, scratch0⟩ rfl).1 [7, 8]⟩

/-- C7: when the sticky `Error` latch is set, `Flush` returns the stored
error, leaves the whole stream (including the sink's buffer) untouched,
and makes no call to any underlying writer. -/
theorem flush_sticky_error (s : Stream) (e : String) (h : s.Error = some e) :
    s.Flush = (s, some e, []) := by
  simp [Stream.Flush, h]

/-- Witness for C7: a broken stream over a buffered sink still holding a
byte; `Flush` returns the latched error and drains nothing. -/
theorem flush_sticky_error_witness :
    (⟨0, .buffered ⟨none, [104]⟩, some "boom", 0⟩ : Stream).Error = some "boom" ∧
    (⟨0, .buffered ⟨none, [104]⟩, some "boom", 0⟩ : Stream).Flush
      = (⟨0, .buffered ⟨none, [104]⟩, some "boom", 0⟩, some "boom", []) :=
  ⟨rfl, flush_sticky_error ⟨0, .buffered ⟨none, [104]⟩, some "boom", 0⟩ "boom" rfl⟩

/-- C8 counterexample: with an accept-all writer bound, the small fixed
writes do not flush: after `writeByte` the buffer still holds the byte, so
"after any write operation the buffer-read operation returns an empty
buffer" fails at `writeByte(97)`. -/
theorem writeByte_not_flushed :
    bufferedStream.Buffer (bufferedStream.writeByte ⟨some acceptAllW, []⟩ 97)
      = [97] ∧
    ([97] : Bytes) ≠ [] := by
  exact ⟨rfl, by decide⟩

/-- C8 amended: with a writer bound that accepts all bytes offered, after
any bulk `Write` the buffer-read operation returns an empty buffer; the
fixed 1–5 byte writes and raw-string writes only append and leave the
bytes buffered until the next bulk `Write` or `flush`. -/
theorem bulkWrite_acceptAll_empties (s : bufferedStream) (w : Writer)
    (hw : s.out = some w) (hacc : ∀ p, (w.write p).1 = p.length) (p : Bytes) :
    ((s.Write p).1).Buffer = [] := by
  simp [bufferedStream.Write, hw, bufferedStream.Buffer, hacc]

/-- Witness for C8's amended claim: buffer `[1]`, bulk write `[2, 3]`,
accept-all writer: everything is flushed. -/
theorem bulkWrite_acceptAll_empties_witness :
    (⟨some acceptAllW, [1]⟩ : bufferedStream).out = some acceptAllW ∧
    (∀ p, (acceptAllW.write p).1 = p.length) ∧
    ((bufferedStream.Write ⟨some acceptAllW, [1]⟩ [2, 3]).1).Buffer = [] :=
  ⟨rfl, fun _ => rfl,
    bulkWrite_acceptAll_empties ⟨some acceptAllW, [1]⟩ acceptAllW rfl
      (fun _ => rfl) [2, 3]⟩

/-- C9 counterexample: on the direct sink with a bound writer,
`WriteEmptyObject` issues two separate one-byte writes `[123]` then
`[125]` to the underlying writer, not a single two-byte write
`[123, 125]`. -/
theorem writeEmptyObject_two_calls :
    (Stream.WriteEmptyObject
        ⟨0, .unbuffered ⟨some acceptAllW, scratch0⟩, none, 0⟩).2
      = [[123], [125]] ∧
    ([[123], [125]] : List Bytes) ≠ [[123, 125]] := by
  exact ⟨by decide, by decide⟩

/-- C9 amended: `WriteEmptyObject` emits `'{'` then `'}'` as two
consecutive single-byte writes and `WriteEmptyArray` emits `"[]"` as one
two-byte write; neither consults or modifies the indentation depth, so at
any nesting depth an empty container produces exactly its two bytes with
no newline or spaces. -/
theorem emptyContainers_behavior (s : Stream) :
    (s.WriteEmptyObject).1.indention = s.indention ∧
    (s.WriteEmptyArray).1.indention = s.indention ∧
    (∀ b, s.sink = .buffered b →
      (s.WriteEmptyObject).1.sink = .buffered ⟨b.out, b.buf ++ [123, 125]⟩ ∧
      (s.WriteEmptyObject).2 = [] ∧
      (s.WriteEmptyArray).1.sink = .buffered ⟨b.out, b.buf ++ [91, 93]⟩ ∧
      (s.WriteEmptyArray).2 = []) ∧
    (∀ u w, s.sink = .unbuffered u → u.out = some w →
      (s.WriteEmptyObject).2 = [[123], [125]] ∧
      (s.WriteEmptyArray).2 = [[91, 93]]) := by
  obtain ⟨step, sink, err, ind⟩ := s
  cases sink with
  | buffered b =>
    refine ⟨rfl, rfl, ?_, ?_⟩
    · intro b2 hb2
      cases hb2
      simp [Stream.WriteEmptyObject, Stream.WriteEmptyArray, Stream.writeByte,
        Stream.writeTwoBytes, bufferedStream.writeByte, bufferedStream.writeTwoBytes]
    · intro u w hu
      cases hu
  | unbuffered u =>
    refine ⟨rfl, rfl, ?_, ?_⟩
    · intro b2 hb2
      cases hb2
    · intro u2 w hu hw
      cases hu
      simp [Stream.WriteEmptyObject, Stream.WriteEmptyArray, Stream.writeByte,
        Stream.writeTwoBytes, unbufferedStream.writeByte,
        unbufferedStream.writeTwoBytes, unbufferedStream.Write, hw]

/-- Witness for C9's amended claim: a buffered stream at depth 4 appends
exactly the two bytes of `{}`. -/
theorem emptyContainers_behavior_witness :
    (⟨2, .buffered ⟨none, [32]⟩, none, 4⟩ : Stream).sink = .buffered ⟨none, [32]⟩ ∧
    ((⟨2, .buffered ⟨none, [32]⟩, none, 4⟩ : Stream).WriteEmptyObject).1.sink
      = .buffered ⟨none, ([32] : Bytes) ++ [123, 125]⟩ :=
  ⟨rfl, ((emptyContainers_behavior ⟨2, .buffered ⟨none, [32]⟩, none, 4⟩).2.2.1
    ⟨none, [32]⟩ rfl).1⟩

/-- C10: when the underlying writer fails during the accumulating sink's
`flush`, the buffer is left completely unchanged (the count the writer
reports is discarded), the error is returned, and the single writer call
carried the entire buffer — so a later flush re-sends it from the start. -/
theorem flush_error_keeps_buffer (s : bufferedStream) (w : Writer) (e : String)
    (hw : s.out = some w) (he : (w.write s.buf).2 = some e) :
    s.flush = (s, some e, [s.buf]) := by
  simp [bufferedStream.flush, hw, he]

/-- Witness for C10: a writer that claims one byte consumed but errors;
the three buffered bytes all remain. -/
theorem flush_error_keeps_buffer_witness :
    (⟨some errW, [9, 8, 7]⟩ : bufferedStream).out = some errW ∧
    (errW.write ([9, 8, 7] : Bytes)).2 = some "boom" ∧
    (⟨some errW, [9, 8, 7]⟩ : bufferedStream).flush
      = (⟨some errW, [9, 8, 7]⟩, some "boom", [[9, 8, 7]]) :=
  ⟨rfl, rfl, flush_error_keeps_buffer ⟨some errW, [9, 8, 7]⟩ errW "boom" rfl rfl⟩

end Jsoniter
